import Mathlib

/-!
Verification of the streaming chat front-end (`app.py`).

The embedding models the program's data and control flow:
* `Event` / `StreamItem` — the event stream delivered by the inference
  endpoint; an item is either a delivered event or an exception raised
  while iterating the stream.
* `streamLoop` / `stream_response` / `stream_renders` — the accumulation
  loop of `stream_response` (lines 168-186): delta events are concatenated
  into `full_text`, the placeholder is re-rendered after each fragment,
  and any exception is caught, an error is shown, and `""` is returned.
* `Message`, `append_and_render_user`, `input_messages`, `turn_request`,
  `runTurn` — the transcript store and the per-submission flow of the
  main block (lines 207-224).
* `get_client`, `init_state`, `reset`, `Session` — credential resolution
  (lines 44-60), session-state initialization (lines 63-80) and the
  clean-chat reset (line 121).
-/

/-- One event delivered by the streaming endpoint: a type tag and, for
text-delta events, the text fragment payload. -/
structure Event where
  type : String
  delta : String
deriving DecidableEq

/-- One step of iterating the stream: either an event is delivered or an
exception is raised while connecting to / reading the stream. -/
inductive StreamItem where
  | ev : Event → StreamItem
  | raise : String → StreamItem
deriving DecidableEq

/-- The loop body of `stream_response` (lines 178-186): fold over the
stream items, appending each `response.output_text.delta` payload to
`full_text` and recording each `placeholder.markdown` call; on a raised
exception the handler returns `""` (the renders made so far stay on
screen). Returns (returned text, values passed to the renderer). -/
def streamLoop : List StreamItem → String → List String → String × List String
  | [], full_text, renders => (full_text, renders)
  | StreamItem.ev e :: rest, full_text, renders =>
    if e.type = "response.output_text.delta" then
      streamLoop rest (full_text ++ e.delta) (renders ++ [full_text ++ e.delta])
    else
      streamLoop rest full_text renders
  | StreamItem.raise _ :: _, _, renders => ("", renders)

/-- The string returned by `stream_response` for a given event stream. -/
def stream_response (items : List StreamItem) : String :=
  (streamLoop items "" []).1

/-- The sequence of values passed to `placeholder.markdown` during
`stream_response`. -/
def stream_renders (items : List StreamItem) : List String :=
  (streamLoop items "" []).2

/-- `true` when iterating the stream raises no exception. -/
def noError (items : List StreamItem) : Bool :=
  items.all fun i =>
    match i with
    | StreamItem.ev _ => true
    | StreamItem.raise _ => false

/-- `true` when the stream contains no explicit completion event. -/
def noCompletion (items : List StreamItem) : Bool :=
  items.all fun i =>
    match i with
    | StreamItem.ev e => !(e.type = "response.completed" : Bool)
    | StreamItem.raise _ => true

/-- The text-fragment payloads of a stream, in arrival order: exactly the
`delta` fields of the `response.output_text.delta` events. -/
def fragments (items : List StreamItem) : List String :=
  items.filterMap fun i =>
    match i with
    | StreamItem.ev e =>
      if e.type = "response.output_text.delta" then some e.delta else none
    | StreamItem.raise _ => none

/-- Concatenation of a list of strings, in order. -/
def concatAll : List String → String
  | [] => ""
  | s :: rest => s ++ concatAll rest

/-- The successive non-empty prefixes `acc+f1, acc+f1+f2, ...` produced by
folding fragments onto `acc`; with `acc = ""` this is the spec's prefix
sequence without the initial empty value. -/
def renderTrace (acc : String) : List String → List String
  | [] => []
  | f :: fs => (acc ++ f) :: renderTrace (acc ++ f) fs

/-- One conversational turn stored in `st.session_state.messages`. -/
structure Message where
  role : String
  content : String
deriving DecidableEq

/-- `append_and_render_user` (line 147): append the user message to the
chat history. -/
def append_and_render_user (messages : List Message) (prompt : String) : List Message :=
  messages ++ [Message.mk "user" prompt]

/-- The generic transcript-store append: `messages.append({...})`
(lines 147 and 224). -/
def append_message (t : List Message) (m : Message) : List Message :=
  t ++ [m]

/-- The clean-chat reset (line 121): `st.session_state.messages = []`. -/
def reset (_t : List Message) : List Message :=
  []

/-- `input_messages` (line 211): rebuild each history entry as a
role/content pair. -/
def input_messages (messages : List Message) : List Message :=
  messages.map fun m => Message.mk m.role m.content

/-- The outbound request payload of `client.responses.stream`
(lines 172-176): model, full message list, verbosity and reasoning
effort. -/
structure Request where
  model : String
  input : List Message
  verbosity : String
  reasoning_effort : String
deriving DecidableEq

/-- The request built for one user submission (lines 207-220): the user
prompt is appended to the history first, then the whole history is
serialized into the payload. -/
def turn_request (messages : List Message) (prompt model verbosity reasoning_effort : String) :
    Request :=
  Request.mk model (input_messages (append_and_render_user messages prompt))
    verbosity reasoning_effort

/-- The transcript after one user submission (lines 207-224): append the
user message, stream the reply, and append an assistant message only when
`output_text` is truthy (non-empty). -/
def runTurn (messages : List Message) (prompt : String) (items : List StreamItem) :
    List Message :=
  let ms := append_and_render_user messages prompt
  let output_text := stream_response items
  if output_text = "" then ms
  else ms ++ [Message.mk "assistant" output_text]

/-- The three session variables initialized by `init_state`
(lines 75-80); `none` models a key absent from `st.session_state`. -/
structure SessionInit where
  messages : Option (List Message)
  model : Option String
  temperature : Option ℚ
deriving DecidableEq

/-- `init_state` (lines 63-80): each variable keeps its value when
present and gets its default when missing (`[]`, `"gpt-5-nano"`,
`0.5`). -/
def init_state (s : SessionInit) : SessionInit :=
  SessionInit.mk (some (s.messages.getD []))
    (some (s.model.getD "gpt-5-nano"))
    (some (s.temperature.getD ((1 : ℚ) / 2)))

/-- The full session state at the time a prompt is submitted. -/
structure Session where
  messages : List Message
  model : String
  temperature : ℚ
  verbosity : String
  reasoning_effort : String
deriving DecidableEq

/-- The request a session builds for a submission (lines 211-220): reads
`messages`, `model`, `verbosity`, `reasoning_effort` and nothing else. -/
def session_request (s : Session) (prompt : String) : Request :=
  turn_request s.messages prompt s.model s.verbosity s.reasoning_effort

/-- The session after one full submission: the transcript is updated by
`runTurn`, all other variables are untouched. -/
def session_turn (s : Session) (prompt : String) (items : List StreamItem) : Session :=
  Session.mk (runTurn s.messages prompt items) s.model s.temperature
    s.verbosity s.reasoning_effort

/-- Python truthiness of an optional string: `None` and `""` are falsy. -/
def pyTruthy (s : Option String) : Bool :=
  match s with
  | none => false
  | some v => !(v = "" : Bool)

/-- Python `a or b`: `a` when `a` is truthy, otherwise `b`. -/
def pyOr (a b : Option String) : Option String :=
  if pyTruthy a then a else b

/-- `get_client` (lines 44-60): `st.secrets.get("OPENAI_API_KEY") or
os.getenv("OPENAI_API_KEY")`; when the result is falsy, show an error and
stop (modelled as `Except.error`), otherwise return the key. -/
def get_client (secrets env : String → Option String) : Except Unit String :=
  match pyOr (secrets "OPENAI_API_KEY") (env "OPENAI_API_KEY") with
  | none => Except.error ()
  | some k => if k = "" then Except.error () else Except.ok k

/-- The top-level script for one submission: resolve the credential (a
failure there halts before any request is built), then run the turn; every
streaming failure is already caught inside `stream_response`. -/
def run_session (secrets env : String → Option String) (messages : List Message)
    (prompt : String) (items : List StreamItem) : Except Unit (List Message) :=
  match get_client secrets env with
  | Except.error e => Except.error e
  | Except.ok _ => Except.ok (runTurn messages prompt items)

/-! ### Helper lemmas about the accumulation loop -/

lemma noError_cons_ev (e : Event) (rest : List StreamItem) :
    noError (StreamItem.ev e :: rest) = noError rest := by
  simp [noError, List.all_cons]

lemma fragments_cons_delta (e : Event) (rest : List StreamItem)
    (h : e.type = "response.output_text.delta") :
    fragments (StreamItem.ev e :: rest) = e.delta :: fragments rest := by
  simp [fragments, List.filterMap_cons, h]

lemma fragments_cons_other (e : Event) (rest : List StreamItem)
    (h : ¬ e.type = "response.output_text.delta") :
    fragments (StreamItem.ev e :: rest) = fragments rest := by
  simp [fragments, List.filterMap_cons, h]

lemma streamLoop_ok (items : List StreamItem) (acc : String) (rs : List String)
    (h : noError items = true) :
    streamLoop items acc rs =
      (acc ++ concatAll (fragments items), rs ++ renderTrace acc (fragments items)) := by
  induction items generalizing acc rs with
  | nil => simp [streamLoop, fragments, concatAll, renderTrace]
  | cons i rest ih =>
    cases i with
    | ev e =>
      rw [noError_cons_ev] at h
      by_cases htype : e.type = "response.output_text.delta"
      · rw [streamLoop, if_pos htype, ih _ _ h, fragments_cons_delta e rest htype]
        simp [concatAll, renderTrace, String.append_assoc]
      · rw [streamLoop, if_neg htype, ih _ _ h, fragments_cons_other e rest htype]
    | raise msg => simp [noError, List.all_cons] at h

lemma streamLoop_err (items : List StreamItem) (acc : String) (rs : List String)
    (h : noError items = false) :
    (streamLoop items acc rs).1 = "" := by
  induction items generalizing acc rs with
  | nil => simp [noError] at h
  | cons i rest ih =>
    cases i with
    | ev e =>
      rw [noError_cons_ev] at h
      by_cases htype : e.type = "response.output_text.delta"
      · rw [streamLoop, if_pos htype]; exact ih _ _ h
      · rw [streamLoop, if_neg htype]; exact ih _ _ h
    | raise msg => rfl

lemma stream_response_ok (items : List StreamItem) (h : noError items = true) :
    stream_response items = concatAll (fragments items) := by
  rw [stream_response, streamLoop_ok items "" [] h]
  simp

lemma stream_renders_ok (items : List StreamItem) (h : noError items = true) :
    stream_renders items = renderTrace "" (fragments items) := by
  rw [stream_renders, streamLoop_ok items "" [] h]
  simp

lemma stream_response_err (items : List StreamItem) (h : noError items = false) :
    stream_response items = "" :=
  streamLoop_err items "" [] h

lemma renderTrace_ne_nil (acc : String) (fs : List String) (h : fs ≠ []) :
    renderTrace acc fs ≠ [] := by
  cases fs with
  | nil => exact absurd rfl h
  | cons f fs => simp [renderTrace]

lemma renderTrace_getLast (fs : List String) (acc : String) (h : fs ≠ []) :
    (renderTrace acc fs).getLast? = some (acc ++ concatAll fs) := by
  induction fs generalizing acc with
  | nil => exact absurd rfl h
  | cons f fs ih =>
    cases fs with
    | nil => simp [renderTrace, concatAll]
    | cons g gs =>
      have hrt : renderTrace (acc ++ f) (g :: gs) = (acc ++ f ++ g) :: renderTrace (acc ++ f ++ g) gs := rfl
      rw [renderTrace, hrt, List.getLast?_cons_cons, ← hrt, ih (acc ++ f) (by simp)]
      simp [concatAll, String.append_assoc]

lemma input_messages_id (messages : List Message) :
    input_messages messages = messages := by
  induction messages with
  | nil => rfl
  | cons m rest ih =>
    show Message.mk m.role m.content :: input_messages rest = m :: rest
    rw [ih]

lemma get_client_error_iff (secrets env : String → Option String) :
    get_client secrets env = Except.error () ↔
      (pyTruthy (secrets "OPENAI_API_KEY") = false ∧
        pyTruthy (env "OPENAI_API_KEY") = false) := by
  cases hs : secrets "OPENAI_API_KEY" with
  | none =>
    cases he : env "OPENAI_API_KEY" with
    | none => simp [get_client, pyOr, pyTruthy, hs, he]
    | some ek =>
      by_cases hek : ek = "" <;>
        simp [get_client, pyOr, pyTruthy, hs, he, hek]
  | some sk =>
    cases he : env "OPENAI_API_KEY" with
    | none =>
      by_cases hsk : sk = "" <;>
        simp [get_client, pyOr, pyTruthy, hs, he, hsk]
    | some ek =>
      by_cases hsk : sk = "" <;> by_cases hek : ek = "" <;>
        simp [get_client, pyOr, pyTruthy, hs, he, hsk, hek]

/-! ### Claim theorems -/

/-- C1: in a successful run of `stream_response`, only
`response.output_text.delta` events contribute to the result, each exactly
once, in arrival order: the returned text is the concatenation of the
delta payloads, whatever non-fragment events are interleaved. -/
theorem stream_response_concatenates_fragments (items : List StreamItem)
    (h : noError items = true) :
    stream_response items = concatAll (fragments items) :=
  stream_response_ok items h

theorem stream_response_concatenates_fragments_witness :
    noError [StreamItem.ev (Event.mk "response.created" ""),
        StreamItem.ev (Event.mk "response.output_text.delta" "Hel"),
        StreamItem.ev (Event.mk "response.reasoning.delta" "noise"),
        StreamItem.ev (Event.mk "response.output_text.delta" "lo"),
        StreamItem.ev (Event.mk "response.completed" "")] = true ∧
      stream_response [StreamItem.ev (Event.mk "response.created" ""),
        StreamItem.ev (Event.mk "response.output_text.delta" "Hel"),
        StreamItem.ev (Event.mk "response.reasoning.delta" "noise"),
        StreamItem.ev (Event.mk "response.output_text.delta" "lo"),
        StreamItem.ev (Event.mk "response.completed" "")] =
      concatAll (fragments [StreamItem.ev (Event.mk "response.created" ""),
        StreamItem.ev (Event.mk "response.output_text.delta" "Hel"),
        StreamItem.ev (Event.mk "response.reasoning.delta" "noise"),
        StreamItem.ev (Event.mk "response.output_text.delta" "lo"),
        StreamItem.ev (Event.mk "response.completed" "")]) :=
  ⟨by decide, stream_response_concatenates_fragments _ (by decide)⟩

/-- C2 counterexample: a run that raises a transport error returns the
very same value (`""`) as a successful run whose final text is the empty
string, so the failure result is not distinguishable from an empty
reply. -/
theorem stream_error_result_not_distinguishable :
    stream_response [StreamItem.raise "connection reset"] = "" ∧
    noError ([] : List StreamItem) = true ∧
    stream_response ([] : List StreamItem) = "" ∧
    stream_response [StreamItem.raise "connection reset"] =
      stream_response ([] : List StreamItem) := by
  decide

/-- C2 (amended): when a transport/protocol error is raised during
streaming, `stream_response` returns the empty string — the same value as
a successful run with no text; failure is signalled only by the
side-effect error notification, not by the returned value. -/
theorem stream_error_returns_empty_string (items : List StreamItem)
    (h : noError items = false) :
    stream_response items = "" :=
  stream_response_err items h

theorem stream_error_returns_empty_string_witness :
    noError [StreamItem.raise "boom"] = false ∧
    stream_response [StreamItem.raise "boom"] = "" :=
  ⟨by decide, stream_error_returns_empty_string [StreamItem.raise "boom"] (by decide)⟩

/-- C3: when the stream raises a transport error, the partial buffer is
not returned (`stream_response` yields `""`) and the turn leaves the
transcript exactly as it was when the stream started: the user message is
there and no assistant message is appended. -/
theorem stream_failure_discards_partial_work (messages : List Message)
    (prompt : String) (items : List StreamItem) (h : noError items = false) :
    stream_response items = "" ∧
    runTurn messages prompt items = append_and_render_user messages prompt := by
  have he := stream_response_err items h
  exact ⟨he, by simp [runTurn, he]⟩

theorem stream_failure_discards_partial_work_witness :
    noError [StreamItem.ev (Event.mk "response.output_text.delta" "Hel"),
        StreamItem.ev (Event.mk "response.output_text.delta" "lo"),
        StreamItem.raise "transport error"] = false ∧
      (stream_response [StreamItem.ev (Event.mk "response.output_text.delta" "Hel"),
        StreamItem.ev (Event.mk "response.output_text.delta" "lo"),
        StreamItem.raise "transport error"] = "" ∧
      runTurn [Message.mk "user" "hi"] "again"
        [StreamItem.ev (Event.mk "response.output_text.delta" "Hel"),
          StreamItem.ev (Event.mk "response.output_text.delta" "lo"),
          StreamItem.raise "transport error"] =
        append_and_render_user [Message.mk "user" "hi"] "again") :=
  ⟨by decide, stream_failure_discards_partial_work [Message.mk "user" "hi"] "again" _ (by decide)⟩

/-- C4 counterexample: for the single fragment "a", the values passed to
the renderer are `["a"]`, not the claimed `["", "a"]` — the initial empty
prefix is never passed to the per-fragment render callback. -/
theorem render_sequence_no_initial_empty :
    stream_renders [StreamItem.ev (Event.mk "response.output_text.delta" "a")] = ["a"] ∧
    ¬ stream_renders [StreamItem.ev (Event.mk "response.output_text.delta" "a")] =
        ["", "a"] := by
  decide

/-- C4 (amended): in a successful run over fragments f1..fN the values
passed to the render callback are exactly the non-empty successive
prefixes f1, f1+f2, ..., f1+...+fN — one call per fragment, no prefix
skipped, and no initial call with the empty string — and when N ≥ 1 the
last rendered value equals the final text returned. -/
theorem render_sequence_prefixes (items : List StreamItem)
    (h : noError items = true) :
    stream_renders items = renderTrace "" (fragments items) ∧
    (fragments items ≠ [] →
      (stream_renders items).getLast? = some (stream_response items)) := by
  refine ⟨stream_renders_ok items h, fun hne => ?_⟩
  rw [stream_renders_ok items h, renderTrace_getLast _ "" hne,
    stream_response_ok items h]
  simp

theorem render_sequence_prefixes_witness :
    noError [StreamItem.ev (Event.mk "response.output_text.delta" "A"),
        StreamItem.ev (Event.mk "response.created" ""),
        StreamItem.ev (Event.mk "response.output_text.delta" "B")] = true ∧
      stream_renders [StreamItem.ev (Event.mk "response.output_text.delta" "A"),
        StreamItem.ev (Event.mk "response.created" ""),
        StreamItem.ev (Event.mk "response.output_text.delta" "B")] =
      renderTrace "" (fragments [StreamItem.ev (Event.mk "response.output_text.delta" "A"),
        StreamItem.ev (Event.mk "response.created" ""),
        StreamItem.ev (Event.mk "response.output_text.delta" "B")]) ∧
      (stream_renders [StreamItem.ev (Event.mk "response.output_text.delta" "A"),
        StreamItem.ev (Event.mk "response.created" ""),
        StreamItem.ev (Event.mk "response.output_text.delta" "B")]).getLast? =
      some (stream_response [StreamItem.ev (Event.mk "response.output_text.delta" "A"),
        StreamItem.ev (Event.mk "response.created" ""),
        StreamItem.ev (Event.mk "response.output_text.delta" "B")]) :=
  ⟨by decide, (render_sequence_prefixes _ (by decide)).1,
    (render_sequence_prefixes _ (by decide)).2 (by decide)⟩

/-- C5: a stream that ends without an explicit completion event still
finalizes to the concatenation of the fragments received — the same
result as if a completion event had arrived — rather than hanging or
being treated as an error. -/
theorem completion_signal_not_required (items : List StreamItem)
    (h : noError items = true) (_hc : noCompletion items = true) :
    stream_response items = concatAll (fragments items) ∧
    stream_response (items ++ [StreamItem.ev (Event.mk "response.completed" "")]) =
      stream_response items := by
  have h2 : noError (items ++ [StreamItem.ev (Event.mk "response.completed" "")]) = true := by
    rw [noError, List.all_append]
    rw [noError] at h
    simp [h]
  have hf : fragments (items ++ [StreamItem.ev (Event.mk "response.completed" "")]) =
      fragments items := by
    simp [fragments, List.filterMap_append]
  exact ⟨stream_response_ok items h, by
    rw [stream_response_ok items h, stream_response_ok _ h2, hf]⟩

theorem completion_signal_not_required_witness :
    noError [StreamItem.ev (Event.mk "response.output_text.delta" "A"),
        StreamItem.ev (Event.mk "response.output_text.delta" "B")] = true ∧
      noCompletion [StreamItem.ev (Event.mk "response.output_text.delta" "A"),
        StreamItem.ev (Event.mk "response.output_text.delta" "B")] = true ∧
      stream_response [StreamItem.ev (Event.mk "response.output_text.delta" "A"),
        StreamItem.ev (Event.mk "response.output_text.delta" "B")] =
      concatAll (fragments [StreamItem.ev (Event.mk "response.output_text.delta" "A"),
        StreamItem.ev (Event.mk "response.output_text.delta" "B")]) ∧
      stream_response ([StreamItem.ev (Event.mk "response.output_text.delta" "A"),
          StreamItem.ev (Event.mk "response.output_text.delta" "B")] ++
        [StreamItem.ev (Event.mk "response.completed" "")]) =
      stream_response [StreamItem.ev (Event.mk "response.output_text.delta" "A"),
        StreamItem.ev (Event.mk "response.output_text.delta" "B")] :=
  ⟨by decide, by decide,
    (completion_signal_not_required _ (by decide) (by decide)).1,
    (completion_signal_not_required _ (by decide) (by decide)).2⟩

/-- C6: the request built for a user submission carries the entire
transcript to date — every prior message followed by the new user
message, as role/content pairs, in original insertion order, unmodified —
so its message list is one longer than the prior transcript (e.g. 5
messages after two completed exchanges). -/
theorem request_contains_full_transcript (messages : List Message)
    (prompt model verbosity reasoning_effort : String) :
    (turn_request messages prompt model verbosity reasoning_effort).input =
      messages ++ [Message.mk "user" prompt] ∧
    (turn_request messages prompt model verbosity reasoning_effort).input.length =
      messages.length + 1 := by
  have h : (turn_request messages prompt model verbosity reasoning_effort).input =
      messages ++ [Message.mk "user" prompt] := by
    show input_messages (append_and_render_user messages prompt) = _
    rw [input_messages_id, append_and_render_user]
  exact ⟨h, by rw [h]; simp⟩

/-- C7: reset is idempotent — it yields the empty transcript from any
state, applying it twice yields the empty transcript both times, and
appending after reset equals appending to a freshly created empty
transcript. -/
theorem reset_idempotent (t : List Message) (m : Message) :
    reset t = [] ∧ reset (reset t) = [] ∧
    append_message (reset t) m = append_message [] m :=
  ⟨rfl, rfl, rfl⟩

/-- C8: credential resolution consults the secrets store under
`OPENAI_API_KEY` first, falls back to the environment variable of the
same name only when the secrets store yields nothing truthy, and the
session run halts with an error exactly when neither source supplies a
truthy credential — streaming errors never produce this halt. -/
theorem credential_resolution_order (secrets env : String → Option String)
    (messages : List Message) (prompt : String) (items : List StreamItem) :
    (∀ k, secrets "OPENAI_API_KEY" = some k → ¬ k = "" →
      get_client secrets env = Except.ok k) ∧
    (pyTruthy (secrets "OPENAI_API_KEY") = false →
      ∀ k, env "OPENAI_API_KEY" = some k → ¬ k = "" →
        get_client secrets env = Except.ok k) ∧
    (run_session secrets env messages prompt items = Except.error () ↔
      pyTruthy (secrets "OPENAI_API_KEY") = false ∧
        pyTruthy (env "OPENAI_API_KEY") = false) := by
  refine ⟨?_, ?_, ?_⟩
  · intro k hk hne
    unfold get_client pyOr
    rw [hk]
    have ht : pyTruthy (some k) = true := by simp [pyTruthy, hne]
    rw [if_pos ht]
    simp [hne]
  · intro hfalse k hk hne
    unfold get_client pyOr
    rw [if_neg (by simp [hfalse]), hk]
    simp [hne]
  · unfold run_session
    cases hg : get_client secrets env with
    | error e =>
      cases e
      exact iff_of_true rfl ((get_client_error_iff secrets env).mp hg)
    | ok k =>
      refine iff_of_false (fun hcontra => Except.noConfusion hcontra) fun hr => ?_
      rw [(get_client_error_iff secrets env).mpr hr] at hg
      exact Except.noConfusion hg

theorem credential_resolution_order_witness :
    get_client (fun _ => some "sk-a") (fun _ => some "sk-b") = Except.ok "sk-a" ∧
    get_client (fun _ => none) (fun _ => some "sk-b") = Except.ok "sk-b" ∧
    run_session (fun _ => some "") (fun _ => none) [] "hi" [] = Except.error () :=
  ⟨(credential_resolution_order (fun _ => some "sk-a") (fun _ => some "sk-b")
      [] "hi" []).1 "sk-a" rfl (by decide),
    (credential_resolution_order (fun _ => none) (fun _ => some "sk-b")
      [] "hi" []).2.1 (by decide) "sk-b" rfl (by decide),
    ((credential_resolution_order (fun _ => some "") (fun _ => none)
      [] "hi" []).2.2).mpr ⟨by decide, by decide⟩⟩

/-- C9: an assistant message is appended to the transcript if and only if
the text returned by `stream_response` is non-empty; a completed reply
whose final text is `""` leaves the transcript exactly as the failure
case does. -/
theorem assistant_commit_iff_nonempty (messages : List Message) (prompt : String)
    (items : List StreamItem) :
    (stream_response items = "" →
      runTurn messages prompt items = append_and_render_user messages prompt) ∧
    (¬ stream_response items = "" →
      runTurn messages prompt items =
        append_and_render_user messages prompt ++
          [Message.mk "assistant" (stream_response items)]) := by
  constructor
  · intro h
    simp [runTurn, h]
  · intro h
    simp [runTurn, h]

theorem assistant_commit_iff_nonempty_witness :
    stream_response [StreamItem.raise "x"] = "" ∧
    runTurn [] "hi" [StreamItem.raise "x"] = append_and_render_user [] "hi" ∧
    ¬ stream_response [StreamItem.ev (Event.mk "response.output_text.delta" "ok")] = "" ∧
    runTurn [] "hi" [StreamItem.ev (Event.mk "response.output_text.delta" "ok")] =
      append_and_render_user [] "hi" ++
        [Message.mk "assistant"
          (stream_response [StreamItem.ev (Event.mk "response.output_text.delta" "ok")])] :=
  ⟨by decide,
    (assistant_commit_iff_nonempty [] "hi" [StreamItem.raise "x"]).1 (by decide),
    by decide,
    (assistant_commit_iff_nonempty [] "hi"
      [StreamItem.ev (Event.mk "response.output_text.delta" "ok")]).2 (by decide)⟩

/-- C10: the temperature variable is initialized to 0.5 when missing but
never read when building or sending a request: two sessions that agree on
everything except temperature build identical request payloads and end
the turn with identical transcripts. -/
theorem temperature_not_read (s1 s2 : Session) (prompt : String)
    (items : List StreamItem)
    (h1 : s1.messages = s2.messages) (h2 : s1.model = s2.model)
    (h3 : s1.verbosity = s2.verbosity)
    (h4 : s1.reasoning_effort = s2.reasoning_effort) :
    (init_state (SessionInit.mk none none none)).temperature = some ((1 : ℚ) / 2) ∧
    session_request s1 prompt = session_request s2 prompt ∧
    (session_turn s1 prompt items).messages = (session_turn s2 prompt items).messages := by
  refine ⟨rfl, ?_, ?_⟩
  · rw [session_request, session_request, h1, h2, h3, h4]
  · show runTurn s1.messages prompt items = runTurn s2.messages prompt items
    rw [h1]

theorem temperature_not_read_witness :
    (init_state (SessionInit.mk none none none)).temperature = some ((1 : ℚ) / 2) ∧
    session_request (Session.mk [] "gpt-5-nano" ((1 : ℚ) / 2) "low" "minimal") "hi" =
      session_request (Session.mk [] "gpt-5-nano" ((7 : ℚ) / 10) "low" "minimal") "hi" ∧
    (session_turn (Session.mk [] "gpt-5-nano" ((1 : ℚ) / 2) "low" "minimal") "hi" []).messages =
      (session_turn (Session.mk [] "gpt-5-nano" ((7 : ℚ) / 10) "low" "minimal") "hi" []).messages :=
  temperature_not_read (Session.mk [] "gpt-5-nano" ((1 : ℚ) / 2) "low" "minimal")
    (Session.mk [] "gpt-5-nano" ((7 : ℚ) / 10) "low" "minimal") "hi" [] rfl rfl rfl rfl
